import Mathlib

/-!
Verification of the training-core declarations in `src/model.hpp` of
POBIMOpenSplatting.

The embedding models C++ `float` scalars by exact rationals (`ℚ`): every
arithmetic operation the embedded code performs on the loss scale is a
multiplication by 0.5 or 2.0, a `min` with 65536, or a comparison, all of
which are exact in binary floating point inside the normal range, so the
rational model is faithful there. Tensor gradients are modelled by their
only property the embedded code inspects: the floating-point class
(finite / infinite / NaN) of each element, plus definedness
(`torch::Tensor::defined`) as an `Option`.
-/

/-- Classification of one gradient element, as seen by `torch::isinf` /
`torch::isnan` in `ManualGradScaler::step` (model.hpp lines 46-47). -/
inductive GradVal where
  | finite (q : ℚ)
  | posInf
  | negInf
  | nan
deriving DecidableEq

def GradVal.isInf : GradVal → Bool
  | .posInf => true
  | .negInf => true
  | _ => false

def GradVal.isNaN : GradVal → Bool
  | .nan => true
  | _ => false

/-- One entry of the `params` vector passed to `ManualGradScaler::step`:
a tensor whose gradient is either undefined (`grad().defined()` false,
modelled by `none`) or a defined list of elements. -/
structure Param where
  grad : Option (List GradVal)
deriving DecidableEq

/-- `torch::isinf(g).any() || torch::isnan(g).any()` (model.hpp lines 46-47). -/
def hasNonFinite (g : List GradVal) : Bool :=
  (g.any fun v => v.isInf) || (g.any fun v => v.isNaN)

/-- The per-parameter test of the scan loop in `ManualGradScaler::step`
(model.hpp lines 44-52): an undefined gradient is skipped. -/
def gradNonFinite (p : Param) : Bool :=
  match p.grad with
  | some g => hasNonFinite g
  | none => false

/-- The whole scan loop (with early break) of `ManualGradScaler::step`
(model.hpp lines 43-52), equivalent to an existential scan. -/
def foundInfScan (params : List Param) : Bool :=
  params.any gradNonFinite

/-- `struct ManualGradScaler` (model.hpp lines 17-28). -/
structure ManualGradScaler where
  scale : ℚ
  growthFactor : ℚ
  backoffFactor : ℚ
  growthInterval : ℤ
  unskippedSteps : ℤ
  enabled : Bool
deriving DecidableEq

/-- The default constructor `ManualGradScaler()` (model.hpp lines 25-28):
initScale = 65536.0f, growth = 2.0f, backoff = 0.5f, interval = 2000. -/
def ManualGradScaler.init : ManualGradScaler :=
  { scale := 65536
    growthFactor := 2
    backoffFactor := 1/2
    growthInterval := 2000
    unskippedSteps := 0
    enabled := true }

/-- `ManualGradScaler::scaleGradients` (model.hpp lines 30-33); the spec
calls this operation `scaleLoss`. -/
def ManualGradScaler.scaleGradients (s : ManualGradScaler) (loss : ℚ) : ℚ :=
  if !s.enabled then loss
  else loss * s.scale

/-- `ManualGradScaler::step` (model.hpp lines 40-67). Returns the updated
controller state together with the boolean the C++ method returns. -/
def ManualGradScaler.step (s : ManualGradScaler) (params : List Param) :
    ManualGradScaler × Bool :=
  if !s.enabled then (s, true)
  else if foundInfScan params then
    ({ s with scale := s.scale * s.backoffFactor, unskippedSteps := 0 }, false)
  else
    let u := s.unskippedSteps + 1
    if u ≥ s.growthInterval then
      ({ s with scale := min (s.scale * s.growthFactor) 65536, unskippedSteps := 0 }, true)
    else
      ({ s with unskippedSteps := u }, true)

/-- Iterated `step` calls: the controller state after a whole sequence of
training iterations, each supplying its parameter list. -/
def ManualGradScaler.runSteps (s : ManualGradScaler) :
    List (List Param) → ManualGradScaler
  | [] => s
  | ps :: rest => ManualGradScaler.runSteps ((s.step ps).1) rest

/-! ## Model construction (model.hpp lines 75-119)

The `torch::Device` argument is abstracted to the one property the header
tests on it, namely whether it equals `torch::kCPU` (lines 109 and 116).
The global torch RNG is modelled as an explicitly threaded natural-number
state; `torch::manual_seed` replaces that state by one derived from the
seed alone. -/

/-- `InputData::points` : per-point positions and colors. -/
structure PointSet where
  xyz : List (ℚ × ℚ × ℚ)
  rgb : List (ℚ × ℚ × ℚ)

/-- The parts of `InputData` (input_data.hpp) read by the constructor
(model.hpp lines 89-91): the point set and the scene calibration. -/
structure InputData where
  points : PointSet
  scale : ℚ
  translation : List ℚ

/-- The constructor arguments of `Model` (model.hpp lines 76-81), with the
device abstracted to its CPU-ness. Note there is no `stopSplitAt` field:
the constructor takes no such argument. -/
structure ModelConfig where
  numCameras : ℤ
  numDownscales : ℤ
  resolutionSchedule : ℤ
  shDegree : ℤ
  shDegreeInterval : ℤ
  refineEvery : ℤ
  warmupLength : ℤ
  resetAlphaEvery : ℤ
  densifyGradThresh : ℚ
  densifySizeThresh : ℚ
  stopScreenSizeAt : ℤ
  splitScreenSize : ℚ
  maxSteps : ℤ
  keepCrs : Bool
  mixedPrecision : Bool
  fp16Level : ℤ
  ampWarmup : ℤ
  deviceIsCPU : Bool

/-- `torch::manual_seed(n)` : the global RNG state becomes a function of
the seed alone, independent of the previous state. -/
def manualSeed (n : ℕ) : ℕ := n

/-- One step of a 64-bit linear congruential generator, standing in for
the torch global RNG transition. -/
def lcgNext (s : ℕ) : ℕ :=
  (6364136223846793005 * s + 1442695040888963407) % 2 ^ 64

/-- A draw in [0,1) from an RNG state. -/
def unitFromState (s : ℕ) : ℚ :=
  ((s / 2 ^ 32) % 2 ^ 32 : ℕ) / (2 ^ 32 : ℚ)

/-- Draw one quaternion (4 components) and return the advanced RNG state. -/
def drawQuat (s : ℕ) : (ℚ × ℚ × ℚ × ℚ) × ℕ :=
  let s1 := lcgNext s
  let s2 := lcgNext s1
  let s3 := lcgNext s2
  let s4 := lcgNext s3
  ((unitFromState s1, unitFromState s2, unitFromState s3, unitFromState s4), s4)

/-- Modelled from the spec: `randomQuatTensor` is declared at model.hpp
line 70 but its body is not under src/; the spec says it produces one
uniformly random unit quaternion per point from the (seeded) global RNG.
It is modelled as a deterministic function of the RNG state, returning
the advanced state. -/
def randomQuatTensor : ℕ → ℕ → List (ℚ × ℚ × ℚ × ℚ) × ℕ
  | 0, s => ([], s)
  | n + 1, s =>
    let d := drawQuat s
    let rest := randomQuatTensor n d.2
    (d.1 :: rest.1, rest.2)

/-- Squared Euclidean distance between two points. -/
def sqDist (a b : ℚ × ℚ × ℚ) : ℚ :=
  (a.1 - b.1) ^ 2 + (a.2.1 - b.2.1) ^ 2 + (a.2.2 - b.2.2) ^ 2

/-- Modelled from the spec: `PointsTensor::scales` (kdtree_tensor.hpp,
body not under src/) is a per-point nearest-neighbor distance heuristic,
a deterministic function of the point cloud; modelled here as the least
positive squared distance to another point (1 when none exists). -/
def knnScale (xyz : List (ℚ × ℚ × ℚ)) (p : ℚ × ℚ × ℚ) : ℚ :=
  ((xyz.map (sqDist p)).filter (fun d => decide (0 < d))).foldr min 1

/-- `PointsTensor(xyz).scales().repeat({1, 3}).log()` (model.hpp line 96):
the heuristic scale, broadcast to three axes and log-transformed. -/
noncomputable def scalesInit (xyz : List (ℚ × ℚ × ℚ)) : List (ℝ × ℝ × ℝ) :=
  xyz.map fun p =>
    let s := Real.log (knnScale xyz p)
    (s, s, s)

/-- `torch::logit` : log-odds of a probability. -/
noncomputable def logit (p : ℝ) : ℝ := Real.log (p / (1 - p))

/-- `torch::sigmoid`, the inverse applied by the consumer of `opacities`. -/
noncomputable def sigmoid (x : ℝ) : ℝ := 1 / (1 + Real.exp (-x))

/-- The fields of `struct Model` (model.hpp lines 75-196) that the
constructor initializes and that the training core observes. The SH color
features (`featuresDc`/`featuresRest` values) depend on the external
`rgb2sh` collaborator and are represented only by the storage-precision
flag the constructor decides (lines 109-112). -/
structure Model where
  numCameras : ℤ
  numDownscales : ℤ
  resolutionSchedule : ℤ
  shDegree : ℤ
  shDegreeInterval : ℤ
  refineEvery : ℤ
  warmupLength : ℤ
  resetAlphaEvery : ℤ
  stopSplitAt : ℤ
  densifyGradThresh : ℚ
  densifySizeThresh : ℚ
  stopScreenSizeAt : ℤ
  splitScreenSize : ℚ
  maxSteps : ℤ
  keepCrs : Bool
  mixedPrecision : Bool
  fp16Level : ℤ
  ampWarmup : ℤ
  deviceIsCPU : Bool
  means : List (ℚ × ℚ × ℚ)
  scales : List (ℝ × ℝ × ℝ)
  quats : List (ℚ × ℚ × ℚ × ℚ)
  opacities : List ℝ
  featuresRestFP16 : Bool
  gradScaler : ManualGradScaler
  scale : ℚ
  translation : List ℚ

/-- The `Model` constructor body (model.hpp lines 81-119). `rngIn` is the
global torch RNG state at entry; line 93 (`torch::manual_seed(42)`)
replaces it before any random draw. Integer division in
`stopSplitAt(maxSteps / 2)` (line 84) is C++ truncating division,
`Int.tdiv`. -/
noncomputable def mkModel (cfg : ModelConfig) (inputData : InputData)
    (rngIn : ℕ) : Model :=
  let numPoints := inputData.points.xyz.length
  let _rngEntry := rngIn
  let rngSeeded := manualSeed 42
  let quatsDraw := randomQuatTensor numPoints rngSeeded
  { numCameras := cfg.numCameras
    numDownscales := cfg.numDownscales
    resolutionSchedule := cfg.resolutionSchedule
    shDegree := cfg.shDegree
    shDegreeInterval := cfg.shDegreeInterval
    refineEvery := cfg.refineEvery
    warmupLength := cfg.warmupLength
    resetAlphaEvery := cfg.resetAlphaEvery
    stopSplitAt := Int.tdiv cfg.maxSteps 2
    densifyGradThresh := cfg.densifyGradThresh
    densifySizeThresh := cfg.densifySizeThresh
    stopScreenSizeAt := cfg.stopScreenSizeAt
    splitScreenSize := cfg.splitScreenSize
    maxSteps := cfg.maxSteps
    keepCrs := cfg.keepCrs
    mixedPrecision := cfg.mixedPrecision
    fp16Level := cfg.fp16Level
    ampWarmup := cfg.ampWarmup
    deviceIsCPU := cfg.deviceIsCPU
    means := inputData.points.xyz
    scales := scalesInit inputData.points.xyz
    quats := quatsDraw.1
    opacities := List.replicate numPoints (logit (1/10))
    featuresRestFP16 :=
      cfg.mixedPrecision && decide (2 ≤ cfg.fp16Level) && !cfg.deviceIsCPU
    gradScaler :=
      { ManualGradScaler.init with
          enabled := cfg.mixedPrecision && !cfg.deviceIsCPU }
    scale := inputData.scale
    translation := inputData.translation }

/-- Modelled from the spec: the precision phase of the step orchestrator
(model.cpp, not under src/) — reduced-precision computation is engaged at
a given step only when mixed precision is on and the step index has passed
the `ampWarmup` window. -/
def ampEngaged (mixedPrecision : Bool) (ampWarmup stepIdx : ℤ) : Bool :=
  mixedPrecision && decide (ampWarmup ≤ stepIdx)

/-! ## Helper lemmas -/

theorem foundInfScan_eq_true {params : List Param}
    (h : ∃ p ∈ params, ∃ g, p.grad = some g ∧ hasNonFinite g = true) :
    foundInfScan params = true := by
  obtain ⟨p, hp, g, hg, hnf⟩ := h
  unfold foundInfScan
  rw [List.any_eq_true]
  refine ⟨p, hp, ?_⟩
  unfold gradNonFinite
  rw [hg]
  exact hnf

theorem foundInfScan_eq_false {params : List Param}
    (h : ∀ p ∈ params, ∀ g, p.grad = some g → hasNonFinite g = false) :
    foundInfScan params = false := by
  rw [Bool.eq_false_iff]
  intro hany
  unfold foundInfScan at hany
  rw [List.any_eq_true] at hany
  obtain ⟨p, hp, hnf⟩ := hany
  cases hgr : p.grad with
  | none => simp [gradNonFinite, hgr] at hnf
  | some g => simp [gradNonFinite, hgr, h p hp g hgr] at hnf

/-- The invariant carried through every `step` call starting from the
default-constructed controller: the scale stays in (0, 65536] and the
constant factors keep their constructor values. -/
def ScaleInv (s : ManualGradScaler) : Prop :=
  0 < s.scale ∧ s.scale ≤ 65536 ∧ s.backoffFactor = 1/2 ∧ s.growthFactor = 2

theorem step_preserves_scaleInv (s : ManualGradScaler) (ps : List Param)
    (h : ScaleInv s) : ScaleInv ((s.step ps).1) := by
  obtain ⟨hpos, hle, hb, hg⟩ := h
  unfold ManualGradScaler.step
  split
  · exact ⟨hpos, hle, hb, hg⟩
  · split
    · refine ⟨?_, ?_, hb, hg⟩
      · simp only
        rw [hb]
        positivity
      · simp only
        rw [hb]
        linarith
    · simp only
      split
      · refine ⟨?_, ?_, hb, hg⟩
        · simp only
          rw [hg]
          exact lt_min (by positivity) (by norm_num)
        · simp only
          exact min_le_right _ _
      · exact ⟨hpos, hle, hb, hg⟩

theorem runSteps_preserves_scaleInv (l : List (List Param))
    (s : ManualGradScaler) (h : ScaleInv s) :
    ScaleInv (s.runSteps l) := by
  induction l generalizing s with
  | nil => exact h
  | cons ps rest ih => exact ih _ (step_preserves_scaleInv s ps h)

/-! ## Claims about the loss-scaling controller -/

/-- C1: with `enabled = true` and the constructor backoff factor 0.5, a
parameter list in which some defined gradient contains an infinite or NaN
value makes `step` halve the scale, reset `unskippedSteps` to 0 and return
false; the new scale is exactly the old scale times 1/2, so no growth
occurs on that call. -/
theorem scaler_step_backoff (s : ManualGradScaler) (params : List Param)
    (hen : s.enabled = true) (hb : s.backoffFactor = 1/2)
    (hover : ∃ p ∈ params, ∃ g, p.grad = some g ∧ hasNonFinite g = true) :
    (s.step params).2 = false ∧
    (s.step params).1.scale = s.scale * (1/2) ∧
    (s.step params).1.unskippedSteps = 0 := by
  have hf := foundInfScan_eq_true hover
  unfold ManualGradScaler.step
  rw [hen, hf, hb]
  simp

/-- Witness for C1: the default controller, given one parameter whose
defined gradient is a single NaN. -/
theorem scaler_step_backoff_witness :
    (ManualGradScaler.init.step [⟨some [GradVal.nan]⟩]).2 = false ∧
    (ManualGradScaler.init.step [⟨some [GradVal.nan]⟩]).1.scale
      = ManualGradScaler.init.scale * (1/2) ∧
    (ManualGradScaler.init.step [⟨some [GradVal.nan]⟩]).1.unskippedSteps = 0 :=
  scaler_step_backoff ManualGradScaler.init [⟨some [GradVal.nan]⟩] rfl rfl
    ⟨⟨some [GradVal.nan]⟩, List.mem_singleton_self _, [GradVal.nan], rfl, rfl⟩

/-- C2: with `enabled = true`, a parameter list whose defined gradients
are all finite makes `step` return true and increment `unskippedSteps`;
when the incremented counter reaches (or exceeds) `growthInterval`, the
scale is multiplied by `growthFactor` and clamped to at most 65536 and the
counter is reset to 0; otherwise the scale is unchanged. -/
theorem scaler_step_growth (s : ManualGradScaler) (params : List Param)
    (hen : s.enabled = true)
    (hfin : ∀ p ∈ params, ∀ g, p.grad = some g → hasNonFinite g = false) :
    (s.step params).2 = true ∧
    (s.growthInterval ≤ s.unskippedSteps + 1 →
      (s.step params).1.scale = min (s.scale * s.growthFactor) 65536 ∧
      (s.step params).1.unskippedSteps = 0) ∧
    (s.unskippedSteps + 1 < s.growthInterval →
      (s.step params).1.scale = s.scale ∧
      (s.step params).1.unskippedSteps = s.unskippedSteps + 1) := by
  have hf := foundInfScan_eq_false hfin
  unfold ManualGradScaler.step
  rw [hen, hf]
  simp only [Bool.not_true, Bool.false_eq_true, if_false]
  split
  · rename_i hge
    refine ⟨rfl, fun _ => ⟨rfl, rfl⟩, fun hlt => absurd hge (by omega)⟩
  · rename_i hnge
    refine ⟨rfl, fun hge => absurd hge (by omega), fun _ => ⟨rfl, rfl⟩⟩

/-- Witness for C2: the default controller after 1999 clean steps, given
an empty parameter list; the counter reaches 2000, the scale is clamped
at min(65536 * 2, 65536) = 65536, the counter resets. -/
theorem scaler_step_growth_witness :
    (({ ManualGradScaler.init with unskippedSteps := 1999 }
        : ManualGradScaler).step []).2 = true ∧
    (({ ManualGradScaler.init with unskippedSteps := 1999 }
        : ManualGradScaler).step []).1.scale = 65536 ∧
    (({ ManualGradScaler.init with unskippedSteps := 1999 }
        : ManualGradScaler).step []).1.unskippedSteps = 0 := by
  have h := scaler_step_growth
    { ManualGradScaler.init with unskippedSteps := 1999 } [] rfl
    (by intro p hp; exact absurd hp (List.not_mem_nil p))
  have hgrow := h.2.1 (by decide)
  refine ⟨h.1, ?_, hgrow.2⟩
  rw [hgrow.1]
  norm_num [ManualGradScaler.init, min_def]

/-- C3: starting from the default-constructed controller (scale 65536),
after every sequence of `step` calls the scale is strictly positive and
at most 65536. (Exact-rational model: halving and doubling are exact in
binary floating point throughout this range.) -/
theorem gradScaler_scale_bounded (inputs : List (List Param)) :
    0 < (ManualGradScaler.init.runSteps inputs).scale ∧
    (ManualGradScaler.init.runSteps inputs).scale ≤ 65536 := by
  have h := runSteps_preserves_scaleInv inputs ManualGradScaler.init
    ⟨by norm_num [ManualGradScaler.init], by norm_num [ManualGradScaler.init],
      rfl, rfl⟩
  exact ⟨h.1, h.2.1⟩

/-- C4: `scaleGradients` (the spec calls it `scaleLoss`) returns
`loss * scale` when the controller is enabled and `loss` unchanged when it
is disabled. -/
theorem scaleGradients_spec (s : ManualGradScaler) (loss : ℚ) :
    s.scaleGradients loss = if s.enabled then loss * s.scale else loss := by
  cases hen : s.enabled <;>
    simp [ManualGradScaler.scaleGradients, hen]

/-- C8: with `enabled = false`, `step` returns true for every parameter
list, including ones whose gradients contain infinities or NaNs, and
leaves the whole controller state (in particular `scale` and
`unskippedSteps`) unchanged. -/
theorem scaler_disabled_passthrough (s : ManualGradScaler)
    (hen : s.enabled = false) (params : List Param) :
    s.step params = (s, true) := by
  unfold ManualGradScaler.step
  rw [hen]
  simp

/-- Witness for C8: a disabled controller given parameters holding a NaN,
an infinity and an undefined gradient still returns true unchanged. -/
theorem scaler_disabled_passthrough_witness :
    (({ ManualGradScaler.init with enabled := false }
        : ManualGradScaler).step
      [⟨some [GradVal.nan]⟩, ⟨some [GradVal.posInf]⟩, ⟨none⟩])
    = ({ ManualGradScaler.init with enabled := false }, true) :=
  scaler_disabled_passthrough
    { ManualGradScaler.init with enabled := false } rfl
    [⟨some [GradVal.nan]⟩, ⟨some [GradVal.posInf]⟩, ⟨none⟩]

/-! ## Claims about model construction -/

/-- A concrete construction configuration: mixed precision on, fp16Level 2,
a non-CPU device, a positive `ampWarmup` window. -/
def cfgFp16 : ModelConfig :=
  { numCameras := 1
    numDownscales := 2
    resolutionSchedule := 3000
    shDegree := 3
    shDegreeInterval := 1000
    refineEvery := 100
    warmupLength := 500
    resetAlphaEvery := 30
    densifyGradThresh := 1/5000
    densifySizeThresh := 1/100
    stopScreenSizeAt := 4000
    splitScreenSize := 1/20
    maxSteps := 30000
    keepCrs := false
    mixedPrecision := true
    fp16Level := 2
    ampWarmup := 100
    deviceIsCPU := false }

/-- A concrete one-point input cloud. -/
def inputTiny : InputData :=
  { points := { xyz := [(0, 0, 0)], rgb := [(255, 0, 0)] }
    scale := 1
    translation := [0, 0, 0] }

/-- C5 counterexample: with mixed precision enabled and a positive
`ampWarmup` window, the constructor (model.hpp lines 109-112) already
stores `featuresRest` in FP16 at construction time, before any training
step, because `fp16Level >= 2` on a non-CPU device triggers the
conversion immediately; the warmup window does not delay the
reduced-precision storage. -/
theorem fp16_storage_engaged_at_construction :
    cfgFp16.mixedPrecision = true ∧ 0 < cfgFp16.ampWarmup ∧
    (mkModel cfgFp16 inputTiny 0).featuresRestFP16 = true :=
  ⟨rfl, by decide, rfl⟩

/-- C5 (amended): reduced-precision computation (modelled from the spec,
the step orchestrator body being outside src/) is not engaged at any step
inside the `ampWarmup` window; FP16 storage of `featuresRest`, however,
is engaged at construction exactly when mixed precision is on, fp16Level
is at least 2 and the device is not the CPU, independently of
`ampWarmup`. -/
theorem amp_warmup_amended (m : Bool) (w t : ℤ) (ht : t < w)
    (cfg : ModelConfig) (input : InputData) (rng : ℕ) :
    ampEngaged m w t = false ∧
    (mkModel cfg input rng).featuresRestFP16
      = (cfg.mixedPrecision && decide (2 ≤ cfg.fp16Level)
          && !cfg.deviceIsCPU) := by
  refine ⟨?_, rfl⟩
  unfold ampEngaged
  rw [decide_eq_false (not_le.mpr ht)]
  exact Bool.and_false m

/-- Witness for C5 (amended), at step 0 of a 100-step warmup window and
the concrete configuration above. -/
theorem amp_warmup_amended_witness :
    ampEngaged true 100 0 = false ∧
    (mkModel cfgFp16 inputTiny 0).featuresRestFP16
      = (cfgFp16.mixedPrecision && decide (2 ≤ cfgFp16.fp16Level)
          && !cfgFp16.deviceIsCPU) :=
  amp_warmup_amended true 100 0 (by decide) cfgFp16 inputTiny 0

/-- C6: at construction from a cloud of N points, `opacities` consists of
N entries (one per point, one column each) all equal to logit(0.1)
(model.hpp line 107), and applying the consumer sigmoid to that stored
logit recovers the initial alpha 0.1. -/
theorem opacities_init_logit (cfg : ModelConfig) (input : InputData)
    (rng : ℕ) :
    (mkModel cfg input rng).opacities
      = List.replicate input.points.xyz.length (logit (1/10)) ∧
    sigmoid (logit (1/10)) = 1/10 := by
  refine ⟨rfl, ?_⟩
  unfold sigmoid logit
  have h9 : ((1 : ℝ)/10) / (1 - 1/10) = (9 : ℝ)⁻¹ := by norm_num
  rw [h9, Real.log_inv, neg_neg, Real.exp_log (by norm_num : (0 : ℝ) < 9)]
  norm_num

/-- C7: model construction is deterministic in its random initialization:
whatever the global RNG state at entry, `torch::manual_seed(42)`
(model.hpp line 93) fixes the draws, so two constructions from the same
input produce identical initial `quats` and `scales`. -/
theorem init_random_reproducible (cfg : ModelConfig) (input : InputData)
    (rng₁ rng₂ : ℕ) :
    (mkModel cfg input rng₁).quats = (mkModel cfg input rng₂).quats ∧
    (mkModel cfg input rng₁).scales = (mkModel cfg input rng₂).scales :=
  ⟨rfl, rfl⟩

/-- C9: after construction, the loss-scaling controller is enabled iff
mixed precision was requested and the device is not the CPU (model.hpp
line 116); on a CPU device it is disabled even when mixed precision is
requested. -/
theorem gradScaler_enabled_iff (cfg : ModelConfig) (input : InputData)
    (rng : ℕ) :
    (mkModel cfg input rng).gradScaler.enabled = true ↔
      (cfg.mixedPrecision = true ∧ cfg.deviceIsCPU = false) := by
  show (cfg.mixedPrecision && !cfg.deviceIsCPU) = true ↔ _
  rw [Bool.and_eq_true, Bool.not_eq_true']

/-- C10: `stopSplitAt` is not an independent configuration option: the
constructor (model.hpp line 84) always sets it to `maxSteps / 2` with C++
truncating integer division, so the structural-edit window
[warmupLength, stopSplitAt) always ends at half the configured maximum
step count. -/
theorem stopSplitAt_half_maxSteps (cfg : ModelConfig) (input : InputData)
    (rng : ℕ) :
    (mkModel cfg input rng).stopSplitAt = Int.tdiv cfg.maxSteps 2 :=
  rfl
